import Mathlib

/-!
Shallow embedding of the getground-scout calculators
(`packages/calculator`: `calculateStampDuty`, `calculateBTLMetrics`,
`calculateMonthlyMortgage`, `calculateSection24Tax`) over exact
rational arithmetic.  JavaScript `Math.round` rounds half toward
positive infinity, which agrees with Mathlib's `round` on every
rational, so `Math.round(x)` is embedded as `round x`,
`Math.round(x*100)/100` as `round2`, and `Math.round(x*10000)/10000`
as `round4`.  Functions that `throw` are embedded in `Except String`.
-/

namespace Scout

/-- `Math.round` producing a rational (whole-unit rounding). -/
def jround (x : ℚ) : ℚ := (round x : ℚ)

/-- `Math.round(x * 100) / 100` — rounding to 2 decimal places. -/
def round2 (x : ℚ) : ℚ := (round (x * 100) : ℚ) / 100

/-- `Math.round(x * 10000) / 10000` — rounding to 4 decimal places. -/
def round4 (x : ℚ) : ℚ := (round (x * 10000) : ℚ) / 10000

/-- `Math.round(x * 10000) / 100` — percentage yields with 2 decimals. -/
def roundPct (x : ℚ) : ℚ := (round (x * 10000) : ℚ) / 100

/-! ### Stamp Duty (SDLT) — `packages/calculator` -/

/-- The `SDLT_BANDS` constant: `(threshold, rate)` pairs. -/
def SDLT_BANDS : List (ℚ × ℚ) :=
  [(0, 0), (250000, 0.05), (925000, 0.10), (1500000, 0.12)]

/-- The `ADDITIONAL_PROPERTY_SURCHARGE` constant (3%). -/
def ADDITIONAL_PROPERTY_SURCHARGE : ℚ := 0.03

/-- The banded loop of `calculateStampDuty`: walks the band list carrying
`previousThreshold`; for each band the taxable slice is
`min(price, nextThreshold) - max(previousThreshold, band.threshold)`
(with `min(price, Infinity) = price` past the last band), taxed at the
band rate whenever `price > band.threshold`. -/
def sdltLoop (price : ℚ) : List (ℚ × ℚ) → ℚ → ℚ
  | [], _ => 0
  | band :: rest, previousThreshold =>
      let upper : ℚ := match rest with
        | [] => price
        | next :: _ => min price next.1
      let taxableInBand := upper - max previousThreshold band.1
      (if band.1 < price then taxableInBand * band.2 else 0) +
        sdltLoop price rest band.1

/-- The accumulated `baseTax` of `calculateStampDuty` before rounding. -/
def sdltBaseTax (price : ℚ) : ℚ := sdltLoop price SDLT_BANDS 0

/-- Result record of `calculateStampDuty` (`StampDutyBreakdown`). -/
structure StampDutyBreakdown where
  baseTax : ℚ
  additionalSurcharge : ℚ
  total : ℚ
  effectiveRate : ℚ
  deriving DecidableEq, Repr

/-- `calculateStampDuty(price, isAdditionalProperty = true)`. -/
def calculateStampDuty (price : ℚ) (isAdditionalProperty : Bool := true) :
    StampDutyBreakdown :=
  if price ≤ 0 then ⟨0, 0, 0, 0⟩
  else
    let baseTax := sdltBaseTax price
    let additionalSurcharge :=
      if isAdditionalProperty then price * ADDITIONAL_PROPERTY_SURCHARGE else 0
    let total := baseTax + additionalSurcharge
    let effectiveRate := if 0 < price then total / price else 0
    ⟨jround baseTax, jround additionalSurcharge, jround total,
      round4 effectiveRate⟩

/-! ### Mortgage and BTL metrics — `packages/calculator` -/

/-- `calculateMonthlyMortgage(mortgageAmount, annualInterestRate)`. -/
def calculateMonthlyMortgage (mortgageAmount annualInterestRate : ℚ) : ℚ :=
  if mortgageAmount ≤ 0 ∨ annualInterestRate ≤ 0 then 0
  else mortgageAmount * annualInterestRate / 12

/-- `BTLCalculatorInput`, with the defaults the destructuring in
`calculateBTLMetrics` applies to the optional fields. -/
structure BTLCalculatorInput where
  price : ℚ
  monthlyRent : ℚ
  ltv : ℚ := 0.75
  interestRate : ℚ := 0.05
  isAdditionalProperty : Bool := true
  maintenancePercent : ℚ := 0.10
  agentFeePercent : ℚ := 0.10
  voidPercent : ℚ := 0.0833
  annualInsurance : ℚ := 0
  groundRent : ℚ := 0
  serviceCharge : ℚ := 0
  deriving DecidableEq, Repr

/-- The `MonthlyExpenses` record. -/
structure MonthlyExpenses where
  mortgage : ℚ
  maintenance : ℚ
  agentFees : ℚ
  voidAllowance : ℚ
  insurance : ℚ
  groundRent : ℚ
  serviceCharge : ℚ
  total : ℚ
  deriving DecidableEq, Repr

/-- The `BTLCalculatorOutput` record. -/
structure BTLCalculatorOutput where
  stampDuty : ℚ
  stampDutyBreakdown : StampDutyBreakdown
  deposit : ℚ
  mortgageAmount : ℚ
  totalPurchaseCost : ℚ
  monthlyMortgage : ℚ
  monthlyGrossRent : ℚ
  monthlyExpenses : MonthlyExpenses
  monthlyNetProfit : ℚ
  annualGrossRent : ℚ
  annualNetProfit : ℚ
  grossYield : ℚ
  netYield : ℚ
  returnOnCapital : ℚ
  deriving DecidableEq, Repr

/-- The `monthlyExpenses` record built inside `calculateBTLMetrics`: each
line item is independently rounded to 2 decimals, then `total` is the
2-decimal rounding of the sum of the already-rounded items. -/
def btlExpenses (input : BTLCalculatorInput) : MonthlyExpenses :=
  let monthlyMortgage :=
    calculateMonthlyMortgage (input.price * input.ltv) input.interestRate
  let mortgage := round2 monthlyMortgage
  let maintenance := round2 (input.monthlyRent * input.maintenancePercent)
  let agentFees := round2 (input.monthlyRent * input.agentFeePercent)
  let voidAllowance := round2 (input.monthlyRent * input.voidPercent)
  let insurance := round2 (input.annualInsurance / 12)
  let groundRent := round2 (input.groundRent / 12)
  let serviceCharge := round2 (input.serviceCharge / 12)
  { mortgage, maintenance, agentFees, voidAllowance, insurance, groundRent,
    serviceCharge,
    total := round2 (mortgage + maintenance + agentFees + voidAllowance +
      insurance + groundRent + serviceCharge) }

/-- The successful body of `calculateBTLMetrics` (everything after the
validation guards). -/
def btlOutput (input : BTLCalculatorInput) : BTLCalculatorOutput :=
  let mortgageAmount := input.price * input.ltv
  let deposit := input.price - mortgageAmount
  let stampDutyBreakdown :=
    calculateStampDuty input.price input.isAdditionalProperty
  let totalPurchaseCost := deposit + stampDutyBreakdown.total
  let annualGrossRent := input.monthlyRent * 12
  let monthlyExpenses := btlExpenses input
  let monthlyNetProfit := round2 (input.monthlyRent - monthlyExpenses.total)
  let annualNetProfit := round2 (monthlyNetProfit * 12)
  let grossYield :=
    if 0 < input.price then roundPct (annualGrossRent / input.price) else 0
  let netYield :=
    if 0 < input.price then roundPct (annualNetProfit / input.price) else 0
  let returnOnCapital :=
    if 0 < totalPurchaseCost then
      roundPct (annualNetProfit / totalPurchaseCost)
    else 0
  { stampDuty := stampDutyBreakdown.total
    stampDutyBreakdown := stampDutyBreakdown
    deposit := jround deposit
    mortgageAmount := jround mortgageAmount
    totalPurchaseCost := jround totalPurchaseCost
    monthlyMortgage := monthlyExpenses.mortgage
    monthlyGrossRent := input.monthlyRent
    monthlyExpenses := monthlyExpenses
    monthlyNetProfit := monthlyNetProfit
    annualGrossRent := annualGrossRent
    annualNetProfit := annualNetProfit
    grossYield := grossYield
    netYield := netYield
    returnOnCapital := returnOnCapital }

/-- `calculateBTLMetrics(input)`; the three `throw new Error(...)` guards
become `Except.error` with the thrown message. -/
def calculateBTLMetrics (input : BTLCalculatorInput) :
    Except String BTLCalculatorOutput :=
  if input.price ≤ 0 then .error "Property price must be greater than 0"
  else if input.monthlyRent < 0 then .error "Monthly rent cannot be negative"
  else if input.ltv < 0 ∨ 1 < input.ltv then
    .error "LTV must be between 0 and 1"
  else .ok (btlOutput input)

/-! ### Section 24 tax comparator — `packages/calculator/section24` -/

/-- The `CORPORATION_TAX_RATE` constant (25%). -/
def CORPORATION_TAX_RATE : ℚ := 0.25

/-- The `SECTION_24_CREDIT_RATE` constant (20%). -/
def SECTION_24_CREDIT_RATE : ℚ := 0.20

/-- `personalRentalProfit = annualRent - annualExpenses` inside
`calculateSection24Tax`. -/
def personalRentalProfit (annualRent annualExpenses : ℚ) : ℚ :=
  annualRent - annualExpenses

/-- `companyProfit = annualRent - annualExpenses - annualFinanceCost`
inside `calculateSection24Tax`. -/
def companyProfit (annualRent annualExpenses annualFinanceCost : ℚ) : ℚ :=
  annualRent - annualExpenses - annualFinanceCost

/-- The `breakdown` part of `Section24Output`. -/
structure Section24Breakdown where
  personalRentalProfit : ℚ
  personalTaxBeforeCredit : ℚ
  section24TaxCredit : ℚ
  companyProfit : ℚ
  deriving DecidableEq, Repr

/-- The `Section24Output` record. -/
structure Section24Output where
  personalTax : ℚ
  companyTax : ℚ
  annualSaving : ℚ
  breakdown : Section24Breakdown
  deriving DecidableEq, Repr

/-- `calculateSection24Tax(input)`; `taxBand` is a rational (its TS type
restricts it to `0.20 | 0.40 | 0.45`), `annualExpenses` defaults to 0,
and the two `throw new Error(...)` guards become `Except.error`. -/
def calculateSection24Tax (annualRent annualFinanceCost taxBand : ℚ)
    (annualExpenses : ℚ := 0) : Except String Section24Output :=
  if annualRent < 0 then .error "Annual rent cannot be negative"
  else if annualFinanceCost < 0 then
    .error "Annual finance cost cannot be negative"
  else
    let rentalProfit := personalRentalProfit annualRent annualExpenses
    let personalTaxBeforeCredit := rentalProfit * taxBand
    let section24TaxCredit := annualFinanceCost * SECTION_24_CREDIT_RATE
    let personalTax := max 0 (personalTaxBeforeCredit - section24TaxCredit)
    let profit := companyProfit annualRent annualExpenses annualFinanceCost
    let companyTax := if 0 < profit then profit * CORPORATION_TAX_RATE else 0
    let annualSaving := personalTax - companyTax
    .ok
      { personalTax := round2 personalTax
        companyTax := round2 companyTax
        annualSaving := round2 annualSaving
        breakdown :=
          { personalRentalProfit := round2 rentalProfit
            personalTaxBeforeCredit := round2 personalTaxBeforeCredit
            section24TaxCredit := round2 section24TaxCredit
            companyProfit := round2 profit } }

/-- Closed form of the unrounded band sum (the zero-rate first band
contributes nothing). -/
theorem sdltBaseTax_eq (price : ℚ) :
    sdltBaseTax price =
      (if 250000 < price then (min price 925000 - 250000) * 0.05 else 0) +
      ((if 925000 < price then (min price 1500000 - 925000) * 0.10 else 0) +
       (if 1500000 < price then (price - 1500000) * 0.12 else 0)) := by
  simp [sdltBaseTax, SDLT_BANDS, sdltLoop]
  norm_num

/-! ### Rounding helper lemmas -/

theorem round_le_round_of_le {x y : ℚ} (h : x ≤ y) : round x ≤ round y := by
  rw [round_eq, round_eq]
  exact Int.floor_mono (by linarith)

theorem jround_mono {x y : ℚ} (h : x ≤ y) : jround x ≤ jround y := by
  unfold jround
  exact_mod_cast round_le_round_of_le h

theorem jround_zero : jround 0 = 0 := by simp [jround]

theorem jround_nonneg {x : ℚ} (h : 0 ≤ x) : 0 ≤ jround x := by
  have := jround_mono h
  rwa [jround_zero] at this

theorem round2_nonneg {x : ℚ} (h : 0 ≤ x) : 0 ≤ round2 x := by
  unfold round2
  have : (0 : ℤ) ≤ round (x * 100) := by
    have := round_le_round_of_le (by positivity : (0 : ℚ) ≤ x * 100)
    simpa using this
  positivity

theorem round4_nonneg {x : ℚ} (h : 0 ≤ x) : 0 ≤ round4 x := by
  unfold round4
  have : (0 : ℤ) ≤ round (x * 10000) := by
    have := round_le_round_of_le (by positivity : (0 : ℚ) ≤ x * 10000)
    simpa using this
  positivity

/-- Rounding distributes over a sum only up to an error of one unit. -/
theorem round_add_bound (x y : ℚ) :
    |(round (x + y) : ℚ) - ((round x : ℚ) + (round y : ℚ))| ≤ 1 := by
  have hx1 : x - 1 / 2 < (round x : ℚ) := sub_half_lt_round x
  have hx2 : (round x : ℚ) ≤ x + 1 / 2 := round_le_add_half x
  have hy1 : y - 1 / 2 < (round y : ℚ) := sub_half_lt_round y
  have hy2 : (round y : ℚ) ≤ y + 1 / 2 := round_le_add_half y
  have hs1 : x + y - 1 / 2 < (round (x + y) : ℚ) := sub_half_lt_round (x + y)
  have hs2 : (round (x + y) : ℚ) ≤ x + y + 1 / 2 := round_le_add_half (x + y)
  set n : ℤ := round (x + y) - round x - round y with hn
  have hcast : (n : ℚ) = (round (x + y) : ℚ) - (round x : ℚ) - (round y : ℚ) := by
    rw [hn]; push_cast; ring
  have hub : (n : ℚ) < 3 / 2 := by rw [hcast]; linarith
  have hlb : -(3 / 2) < (n : ℚ) := by rw [hcast]; linarith
  have hub2 : (2 * n : ℤ) < 3 := by
    have h' : ((2 * n : ℤ) : ℚ) < 3 := by push_cast; linarith
    exact_mod_cast h'
  have hlb2 : (-3 : ℤ) < 2 * n := by
    have h' : (-3 : ℚ) < ((2 * n : ℤ) : ℚ) := by push_cast; linarith
    exact_mod_cast h'
  have h1 : n ≤ 1 := by omega
  have h2 : -1 ≤ n := by omega
  have : |(n : ℚ)| ≤ 1 := abs_le.2 ⟨by exact_mod_cast h2, by exact_mod_cast h1⟩
  calc |(round (x + y) : ℚ) - ((round x : ℚ) + (round y : ℚ))|
      = |(n : ℚ)| := by rw [hcast]; ring_nf
    _ ≤ 1 := this

theorem jround_add_bound (x y : ℚ) :
    |jround (x + y) - (jround x + jround y)| ≤ 1 := round_add_bound x y

theorem round_sub_bound (x y : ℚ) :
    |(round (x - y) : ℚ) - ((round x : ℚ) - (round y : ℚ))| ≤ 1 := by
  have h := round_add_bound (x - y) y
  rw [sub_add_cancel] at h
  calc |(round (x - y) : ℚ) - ((round x : ℚ) - (round y : ℚ))|
      = |(round x : ℚ) - ((round (x - y) : ℚ) + (round y : ℚ))| := by
        rw [show (round (x - y) : ℚ) - ((round x : ℚ) - (round y : ℚ)) =
          -((round x : ℚ) - ((round (x - y) : ℚ) + (round y : ℚ))) by ring, abs_neg]
    _ ≤ 1 := h

/-- Two-decimal rounding distributes over a difference up to a penny. -/
theorem round2_sub_bound (x y : ℚ) :
    |round2 (x - y) - (round2 x - round2 y)| ≤ 1 / 100 := by
  unfold round2
  have h : (x - y) * 100 = x * 100 - y * 100 := by ring
  rw [h]
  have h2 : (round (x * 100 - y * 100) : ℚ) / 100 -
      ((round (x * 100) : ℚ) / 100 - (round (y * 100) : ℚ) / 100) =
      ((round (x * 100 - y * 100) : ℚ) -
        ((round (x * 100) : ℚ) - (round (y * 100) : ℚ))) / 100 := by ring
  rw [h2, abs_div, abs_of_pos (by norm_num : (0 : ℚ) < 100)]
  have := round_sub_bound (x * 100) (y * 100)
  linarith

/-- A rational that is already a whole number of hundredths is fixed by
two-decimal rounding. -/
theorem round2_int_div (k : ℤ) : round2 ((k : ℚ) / 100) = (k : ℚ) / 100 := by
  unfold round2
  rw [div_mul_cancel₀ _ (by norm_num : (100 : ℚ) ≠ 0), round_intCast]

/-! ### Band-shape lemmas for the SDLT sum -/

theorem bandIf_nonneg (lo hi r p : ℚ) (hr : 0 ≤ r) (hlh : lo ≤ hi) :
    0 ≤ (if lo < p then (min p hi - lo) * r else 0) := by
  rcases lt_or_le lo p with h | h
  · rw [if_pos h]
    exact mul_nonneg (by simpa using sub_nonneg.2 (le_min h.le hlh)) hr
  · rw [if_neg (not_lt.2 h)]

theorem bandIfLast_nonneg (lo r p : ℚ) (hr : 0 ≤ r) :
    0 ≤ (if lo < p then (p - lo) * r else 0) := by
  rcases lt_or_le lo p with h | h
  · rw [if_pos h]
    exact mul_nonneg (by linarith) hr
  · rw [if_neg (not_lt.2 h)]

theorem bandIf_mono (lo hi r : ℚ) (hr : 0 ≤ r) (hlh : lo ≤ hi) {p1 p2 : ℚ}
    (h : p1 ≤ p2) :
    (if lo < p1 then (min p1 hi - lo) * r else 0) ≤
      (if lo < p2 then (min p2 hi - lo) * r else 0) := by
  rcases lt_or_le lo p1 with h1 | h1
  · rw [if_pos h1, if_pos (lt_of_lt_of_le h1 h)]
    exact mul_le_mul_of_nonneg_right
      (sub_le_sub_right (min_le_min h le_rfl) lo) hr
  · rw [if_neg (not_lt.2 h1)]
    exact bandIf_nonneg lo hi r p2 hr hlh

theorem bandIfLast_mono (lo r : ℚ) (hr : 0 ≤ r) {p1 p2 : ℚ} (h : p1 ≤ p2) :
    (if lo < p1 then (p1 - lo) * r else 0) ≤
      (if lo < p2 then (p2 - lo) * r else 0) := by
  rcases lt_or_le lo p1 with h1 | h1
  · rw [if_pos h1, if_pos (lt_of_lt_of_le h1 h)]
    exact mul_le_mul_of_nonneg_right (by linarith) hr
  · rw [if_neg (not_lt.2 h1)]
    exact bandIfLast_nonneg lo r p2 hr

theorem sdltBaseTax_nonneg (p : ℚ) : 0 ≤ sdltBaseTax p := by
  rw [sdltBaseTax_eq]
  have t1 := bandIf_nonneg 250000 925000 0.05 p (by norm_num) (by norm_num)
  have t2 := bandIf_nonneg 925000 1500000 0.10 p (by norm_num) (by norm_num)
  have t3 := bandIfLast_nonneg 1500000 0.12 p (by norm_num)
  linarith

theorem sdltBaseTax_mono {p1 p2 : ℚ} (h : p1 ≤ p2) :
    sdltBaseTax p1 ≤ sdltBaseTax p2 := by
  rw [sdltBaseTax_eq, sdltBaseTax_eq]
  have t1 := bandIf_mono 250000 925000 0.05 (by norm_num) (by norm_num) h
  have t2 := bandIf_mono 925000 1500000 0.10 (by norm_num) (by norm_num) h
  have t3 := bandIfLast_mono 1500000 0.12 (by norm_num) h
  linarith

/-- The spec's statement of the base tax: the marginal amount of the price
falling in each of `[0,250000)`, `[250000,925000)`, `[925000,1500000)`,
`[1500000,∞)` taxed at 0%, 5%, 10%, 12%. -/
def sdltSpecBandSum (price : ℚ) : ℚ :=
  0 * max 0 (min price 250000 - 0) +
  0.05 * max 0 (min price 925000 - 250000) +
  0.10 * max 0 (min price 1500000 - 925000) +
  0.12 * max 0 (price - 1500000)

theorem bandIf_eq_spec (lo hi r : ℚ) (hlh : lo < hi) (p : ℚ) :
    (if lo < p then (min p hi - lo) * r else 0) = r * max 0 (min p hi - lo) := by
  rcases lt_or_le lo p with h | h
  · rw [if_pos h, max_eq_right (by simpa using sub_nonneg.2 (le_min h.le hlh.le)),
      mul_comm]
  · rw [if_neg (not_lt.2 h),
      max_eq_left (sub_nonpos.2 ((min_le_left p hi).trans h)), mul_zero]

theorem bandIfLast_eq_spec (lo r p : ℚ) :
    (if lo < p then (p - lo) * r else 0) = r * max 0 (p - lo) := by
  rcases lt_or_le lo p with h | h
  · rw [if_pos h, max_eq_right (by linarith), mul_comm]
  · rw [if_neg (not_lt.2 h), max_eq_left (by linarith), mul_zero]

/-- The loop of `calculateStampDuty` computes exactly the spec's marginal
band sum. -/
theorem sdltBaseTax_eq_spec (p : ℚ) : sdltBaseTax p = sdltSpecBandSum p := by
  rw [sdltBaseTax_eq]
  unfold sdltSpecBandSum
  rw [bandIf_eq_spec 250000 925000 0.05 (by norm_num) p,
    bandIf_eq_spec 925000 1500000 0.10 (by norm_num) p,
    bandIfLast_eq_spec 1500000 0.12 p]
  ring

/-! ### Unfolding lemmas for `calculateStampDuty` -/

theorem calculateStampDuty_nonpos (price : ℚ) (flag : Bool) (h : price ≤ 0) :
    calculateStampDuty price flag = ⟨0, 0, 0, 0⟩ := by
  unfold calculateStampDuty
  rw [if_pos h]

theorem calculateStampDuty_pos (price : ℚ) (flag : Bool) (h : 0 < price) :
    calculateStampDuty price flag =
      ⟨jround (sdltBaseTax price),
        jround (if flag then price * ADDITIONAL_PROPERTY_SURCHARGE else 0),
        jround (sdltBaseTax price +
          (if flag then price * ADDITIONAL_PROPERTY_SURCHARGE else 0)),
        round4 ((sdltBaseTax price +
          (if flag then price * ADDITIONAL_PROPERTY_SURCHARGE else 0)) / price)⟩ := by
  unfold calculateStampDuty
  rw [if_neg (not_le.2 h)]
  simp only [if_pos h]

/-! ### Claim theorems: stamp duty -/

/-- C1: for every price > 0 and every flag, `calculateStampDuty` returns
`baseTax` equal to the whole-unit rounding of the marginal band sum over
`[0,250000)`, `[250000,925000)`, `[925000,1500000)`, `[1500000,∞)` at
0%, 5%, 10%, 12%; in particular `calculateStampDuty 450000 true` has
`baseTax = 10000` and `calculateStampDuty 1000000 true` has
`baseTax = 41250`. -/
theorem stampDuty_baseTax_progressive (price : ℚ) (flag : Bool)
    (h : 0 < price) :
    (calculateStampDuty price flag).baseTax = jround (sdltSpecBandSum price) ∧
    (calculateStampDuty 450000 true).baseTax = 10000 ∧
    (calculateStampDuty 1000000 true).baseTax = 41250 := by
  refine ⟨?_, ?_, ?_⟩
  · rw [calculateStampDuty_pos price flag h, sdltBaseTax_eq_spec]
  · rw [calculateStampDuty_pos 450000 true (by norm_num)]
    norm_num [sdltBaseTax_eq, jround, round_eq, min_def]
  · rw [calculateStampDuty_pos 1000000 true (by norm_num)]
    norm_num [sdltBaseTax_eq, jround, round_eq, min_def]

theorem stampDuty_baseTax_progressive_witness :
    (calculateStampDuty 450000 true).baseTax = jround (sdltSpecBandSum 450000) :=
  (stampDuty_baseTax_progressive 450000 true (by norm_num)).1

/-- C8: for every price ≥ 0, the `additionalSurcharge` field is the
whole-unit rounding of 3% of the entire price when `isAdditionalProperty`
is true and 0 otherwise, and it is added on top of the banded base tax in
the total. -/
theorem stampDuty_surcharge_flat (price : ℚ) (flag : Bool) (h : 0 ≤ price) :
    (calculateStampDuty price flag).additionalSurcharge =
      (if flag then jround (price * 0.03) else 0) ∧
    (calculateStampDuty price flag).total =
      jround (sdltBaseTax price + (if flag then price * 0.03 else 0)) := by
  rcases eq_or_lt_of_le h with h0 | h0
  · have hp : price = 0 := h0.symm
    subst hp
    rw [calculateStampDuty_nonpos 0 flag le_rfl]
    have hb : sdltBaseTax 0 = 0 := by rw [sdltBaseTax_eq]; norm_num
    constructor
    · cases flag <;> simp [jround]
    · cases flag <;> simp [jround, hb]
  · rw [calculateStampDuty_pos price flag h0]
    constructor
    · cases flag <;> simp [jround, ADDITIONAL_PROPERTY_SURCHARGE]
    · cases flag <;> simp [ADDITIONAL_PROPERTY_SURCHARGE]

theorem stampDuty_surcharge_flat_witness :
    (calculateStampDuty 450000 true).additionalSurcharge =
      (if true then jround ((450000 : ℚ) * 0.03) else 0) :=
  (stampDuty_surcharge_flat 450000 true (by norm_num)).1

/-- C9: the rounded `baseTax` field of `calculateStampDuty` is monotone in
price for any fixed flag. -/
theorem stampDuty_baseTax_monotone (p1 p2 : ℚ) (flag : Bool) (h0 : 0 ≤ p1)
    (h : p1 < p2) :
    (calculateStampDuty p1 flag).baseTax ≤ (calculateStampDuty p2 flag).baseTax := by
  rcases le_or_lt p1 0 with h1 | h1
  · rw [calculateStampDuty_nonpos p1 flag h1,
      calculateStampDuty_pos p2 flag (lt_of_le_of_lt h0 h)]
    exact jround_nonneg (sdltBaseTax_nonneg p2)
  · rw [calculateStampDuty_pos p1 flag h1,
      calculateStampDuty_pos p2 flag (h1.trans h)]
    exact jround_mono (sdltBaseTax_mono h.le)

theorem stampDuty_baseTax_monotone_witness :
    (calculateStampDuty 450000 true).baseTax ≤
      (calculateStampDuty 1000000 true).baseTax :=
  stampDuty_baseTax_monotone 450000 1000000 true (by norm_num) (by norm_num)

/-- C5 counterexample: at price 250050 with the surcharge flag set, the
rounded output fields give `baseTax + additionalSurcharge = 3 + 7502 = 7505`
while `total = 7504`, so `total = baseTax + additionalSurcharge` fails for
the rounded fields. -/
theorem stampDuty_total_field_counterexample :
    (calculateStampDuty 250050 true).baseTax = 3 ∧
    (calculateStampDuty 250050 true).additionalSurcharge = 7502 ∧
    (calculateStampDuty 250050 true).total = 7504 ∧
    (7504 : ℚ) ≠ 3 + 7502 := by
  rw [calculateStampDuty_pos 250050 true (by norm_num)]
  refine ⟨?_, ?_, ?_, by norm_num⟩ <;>
    norm_num [sdltBaseTax_eq, jround, round_eq, min_def,
      ADDITIONAL_PROPERTY_SURCHARGE]

/-- C5 amended: every `calculateStampDuty` result has non-negative fields;
`total` is the whole-unit rounding of the pre-rounding sum of base tax and
surcharge — it can differ from `baseTax + additionalSurcharge` of the
rounded fields, though by at most 1; `effectiveRate` is the pre-rounding
total divided by price, rounded to 4 decimal places, when price > 0; and a
non-positive price yields the all-zero record. -/
theorem stampDuty_result_invariant (price : ℚ) (flag : Bool) :
    0 ≤ (calculateStampDuty price flag).baseTax ∧
    0 ≤ (calculateStampDuty price flag).additionalSurcharge ∧
    0 ≤ (calculateStampDuty price flag).total ∧
    0 ≤ (calculateStampDuty price flag).effectiveRate ∧
    |(calculateStampDuty price flag).total -
      ((calculateStampDuty price flag).baseTax +
        (calculateStampDuty price flag).additionalSurcharge)| ≤ 1 ∧
    (0 < price →
      (calculateStampDuty price flag).total =
        jround (sdltBaseTax price +
          (if flag then price * ADDITIONAL_PROPERTY_SURCHARGE else 0)) ∧
      (calculateStampDuty price flag).effectiveRate =
        round4 ((sdltBaseTax price +
          (if flag then price * ADDITIONAL_PROPERTY_SURCHARGE else 0)) / price)) ∧
    (price ≤ 0 → calculateStampDuty price flag = ⟨0, 0, 0, 0⟩) := by
  rcases le_or_lt price 0 with h | h
  · rw [calculateStampDuty_nonpos price flag h]
    refine ⟨le_rfl, le_rfl, le_rfl, le_rfl, by norm_num, ?_, fun _ => rfl⟩
    intro hpos
    exact absurd hpos (not_lt.2 h)
  · rw [calculateStampDuty_pos price flag h]
    have hsur : 0 ≤ (if flag then price * ADDITIONAL_PROPERTY_SURCHARGE else 0) := by
      cases flag
      · simp
      · simp [ADDITIONAL_PROPERTY_SURCHARGE]; positivity
    have hbase := sdltBaseTax_nonneg price
    refine ⟨jround_nonneg hbase, jround_nonneg hsur,
      jround_nonneg (add_nonneg hbase hsur),
      round4_nonneg (div_nonneg (add_nonneg hbase hsur) h.le),
      jround_add_bound _ _, fun _ => ⟨rfl, rfl⟩, ?_⟩
    intro hneg
    exact absurd h (not_lt.2 hneg)

theorem stampDuty_result_invariant_witness :
    (calculateStampDuty 250050 true).total =
      jround (sdltBaseTax 250050 +
        (if true then (250050 : ℚ) * ADDITIONAL_PROPERTY_SURCHARGE else 0)) :=
  (((stampDuty_result_invariant 250050 true).2.2.2.2.2.1 (by norm_num)).1)

/-! ### Claim theorems: Section 24 -/

theorem calculateSection24Tax_ok (annualRent annualFinanceCost taxBand
    annualExpenses : ℚ) (hR : 0 ≤ annualRent) (hF : 0 ≤ annualFinanceCost) :
    calculateSection24Tax annualRent annualFinanceCost taxBand annualExpenses =
      .ok
        { personalTax := round2 (max 0
            (personalRentalProfit annualRent annualExpenses * taxBand -
              annualFinanceCost * SECTION_24_CREDIT_RATE))
          companyTax := round2
            (if 0 < companyProfit annualRent annualExpenses annualFinanceCost
             then companyProfit annualRent annualExpenses annualFinanceCost *
               CORPORATION_TAX_RATE
             else 0)
          annualSaving := round2 (max 0
            (personalRentalProfit annualRent annualExpenses * taxBand -
              annualFinanceCost * SECTION_24_CREDIT_RATE) -
            (if 0 < companyProfit annualRent annualExpenses annualFinanceCost
             then companyProfit annualRent annualExpenses annualFinanceCost *
               CORPORATION_TAX_RATE
             else 0))
          breakdown :=
            { personalRentalProfit :=
                round2 (personalRentalProfit annualRent annualExpenses)
              personalTaxBeforeCredit :=
                round2 (personalRentalProfit annualRent annualExpenses * taxBand)
              section24TaxCredit :=
                round2 (annualFinanceCost * SECTION_24_CREDIT_RATE)
              companyProfit :=
                round2 (companyProfit annualRent annualExpenses annualFinanceCost) } } := by
  unfold calculateSection24Tax
  rw [if_neg (not_lt.2 hR), if_neg (not_lt.2 hF)]

/-- C2: for annualRent ≥ 0, annualFinanceCost ≥ 0 and a tax band in
{0.20, 0.40, 0.45}, `calculateSection24Tax` returns
`personalTax = round2 (max 0 ((rent - expenses) * band - financeCost * 0.20))`
and `companyTax = round2 (if profit > 0 then profit * 0.25 else 0)` with
`profit = rent - expenses - financeCost`; in particular the documented
example yields 5590, 2087.50 and saving 3502.50. -/
theorem section24_tax_formulas (annualRent annualFinanceCost taxBand
    annualExpenses : ℚ) (hR : 0 ≤ annualRent) (hF : 0 ≤ annualFinanceCost)
    (ht : taxBand = 0.20 ∨ taxBand = 0.40 ∨ taxBand = 0.45) :
    ∃ out, calculateSection24Tax annualRent annualFinanceCost taxBand
        annualExpenses = .ok out ∧
      out.personalTax = round2 (max 0
        ((annualRent - annualExpenses) * taxBand - annualFinanceCost * 0.20)) ∧
      out.companyTax = round2
        (if 0 < annualRent - annualExpenses - annualFinanceCost
         then (annualRent - annualExpenses - annualFinanceCost) * 0.25
         else 0) ∧
      calculateSection24Tax 21600 11250 0.40 2000 =
        .ok ⟨5590, 2087.5, 3502.5, ⟨19600, 7840, 2250, 8350⟩⟩ := by
  refine ⟨_, calculateSection24Tax_ok _ _ _ _ hR hF, ?_, ?_, ?_⟩
  · simp [personalRentalProfit, SECTION_24_CREDIT_RATE]
  · simp [companyProfit, CORPORATION_TAX_RATE]
  · rw [calculateSection24Tax_ok 21600 11250 0.40 2000 (by norm_num) (by norm_num)]
    norm_num [personalRentalProfit, companyProfit, SECTION_24_CREDIT_RATE,
      CORPORATION_TAX_RATE, round2, round_eq, max_def]

theorem section24_tax_formulas_witness :
    calculateSection24Tax 21600 11250 0.40 2000 =
      .ok ⟨5590, 2087.5, 3502.5, ⟨19600, 7840, 2250, 8350⟩⟩ := by
  obtain ⟨out, -, -, -, h⟩ :=
    section24_tax_formulas 21600 11250 0.40 2000 (by norm_num) (by norm_num)
      (Or.inr (Or.inl rfl))
  exact h

/-- C6 counterexample: at annualRent 0.017, annualFinanceCost 0.009, tax
band 0.40, expenses 0, the rounded fields are `personalTax = 0.01`,
`companyTax = 0`, `annualSaving = 0`, so
`annualSaving = personalTax - companyTax` fails for the rounded fields. -/
theorem section24_saving_field_counterexample :
    calculateSection24Tax 0.017 0.009 0.4 0 =
      .ok ⟨0.01, 0, 0, ⟨0.02, 0.01, 0, 0.01⟩⟩ ∧
    (0 : ℚ) ≠ 0.01 - 0 := by
  constructor
  · rw [calculateSection24Tax_ok 0.017 0.009 0.4 0 (by norm_num) (by norm_num)]
    norm_num [personalRentalProfit, companyProfit, SECTION_24_CREDIT_RATE,
      CORPORATION_TAX_RATE, round2, round_eq, max_def]
  · norm_num

/-- C6 amended: every `calculateSection24Tax` result has
`personalTax ≥ 0` and `companyTax ≥ 0`, and `annualSaving` is the
two-decimal rounding of the pre-rounding difference `personalTax -
companyTax`; it therefore agrees with the difference of the rounded output
fields only up to a penny (and may legitimately be negative — no
take-the-better logic is applied). -/
theorem section24_output_invariant (annualRent annualFinanceCost taxBand
    annualExpenses : ℚ) (hR : 0 ≤ annualRent) (hF : 0 ≤ annualFinanceCost) :
    ∃ out, calculateSection24Tax annualRent annualFinanceCost taxBand
        annualExpenses = .ok out ∧
      0 ≤ out.personalTax ∧ 0 ≤ out.companyTax ∧
      out.annualSaving = round2 (max 0
        (personalRentalProfit annualRent annualExpenses * taxBand -
          annualFinanceCost * SECTION_24_CREDIT_RATE) -
        (if 0 < companyProfit annualRent annualExpenses annualFinanceCost
         then companyProfit annualRent annualExpenses annualFinanceCost *
           CORPORATION_TAX_RATE
         else 0)) ∧
      |out.annualSaving - (out.personalTax - out.companyTax)| ≤ 1 / 100 := by
  refine ⟨_, calculateSection24Tax_ok _ _ _ _ hR hF, ?_, ?_, rfl, ?_⟩
  · exact round2_nonneg (le_max_left 0 _)
  · apply round2_nonneg
    split_ifs with hp
    · exact mul_nonneg hp.le (by norm_num [CORPORATION_TAX_RATE])
    · exact le_rfl
  · exact round2_sub_bound _ _

theorem section24_output_invariant_witness :
    ∃ out, calculateSection24Tax 21600 11250 0.40 2000 = .ok out ∧
      0 ≤ out.personalTax ∧ 0 ≤ out.companyTax ∧
      out.annualSaving = round2 (max 0
        (personalRentalProfit 21600 2000 * 0.40 -
          11250 * SECTION_24_CREDIT_RATE) -
        (if 0 < companyProfit 21600 2000 11250
         then companyProfit 21600 2000 11250 * CORPORATION_TAX_RATE
         else 0)) ∧
      |out.annualSaving - (out.personalTax - out.companyTax)| ≤ 1 / 100 :=
  section24_output_invariant 21600 11250 0.40 2000 (by norm_num) (by norm_num)

/-- C10: `calculateSection24Tax` raises only for negative annualRent or
negative annualFinanceCost — any annualExpenses value, negative or
exceeding the rent, is accepted — and a negative annualExpenses silently
inflates both the personal rental profit and the company profit. -/
theorem section24_no_expenses_validation (annualRent annualFinanceCost
    annualExpenses taxBand : ℚ) :
    ((calculateSection24Tax annualRent annualFinanceCost taxBand
        annualExpenses).toOption = none ↔
      annualRent < 0 ∨ annualFinanceCost < 0) ∧
    (annualExpenses < 0 →
      annualRent < personalRentalProfit annualRent annualExpenses ∧
      companyProfit annualRent 0 annualFinanceCost <
        companyProfit annualRent annualExpenses annualFinanceCost) := by
  constructor
  · unfold calculateSection24Tax
    split_ifs with h1 h2
    · simp [Except.toOption, h1]
    · simp [Except.toOption, h2]
    · simp [Except.toOption, h1, h2]
  · intro hE
    constructor
    · unfold personalRentalProfit; linarith
    · unfold companyProfit; linarith

theorem section24_no_expenses_validation_witness :
    (10 : ℚ) < personalRentalProfit 10 (-3) ∧
      companyProfit 10 0 5 < companyProfit 10 (-3) 5 :=
  (section24_no_expenses_validation 10 5 (-3) 0.4).2 (by norm_num)

/-! ### Claim theorems: BTL metrics -/

/-- `round (-m) + round m` vanishes unless `m` is an exact half-integer,
where it is 1 — the source of the deposit/mortgage off-by-one. -/
theorem round_fract_half (m : ℚ) :
    round (-m) + round m = if Int.fract m = 1 / 2 then 1 else 0 := by
  have hm : ((⌊m⌋ : ℚ)) + Int.fract m = m := Int.floor_add_fract m
  have hf0 : 0 ≤ Int.fract m := Int.fract_nonneg m
  have hf1 : Int.fract m < 1 := Int.fract_lt_one m
  have h1 : round m = ⌊m⌋ + round (Int.fract m) := by
    conv_lhs => rw [← hm]
    exact round_int_add (Int.fract m) ⌊m⌋
  have h2 : round (-m) = -⌊m⌋ + round (-Int.fract m) := by
    have hrw : -m = ((-⌊m⌋ : ℤ) : ℚ) + -Int.fract m := by push_cast; linarith
    rw [hrw, round_int_add]
  rcases lt_trichotomy (Int.fract m) (1 / 2) with hc | hc | hc
  · have hr1 : round (Int.fract m) = 0 :=
      round_eq_zero_iff.2 ⟨by linarith, hc⟩
    have hr2 : round (-Int.fract m) = 0 :=
      round_eq_zero_iff.2 ⟨by linarith, by linarith⟩
    rw [h1, h2, hr1, hr2, if_neg (ne_of_lt hc)]
    ring
  · have hr1 : round (Int.fract m) = 1 := by rw [hc]; norm_num [round_eq]
    have hr2 : round (-Int.fract m) = 0 := by rw [hc]; norm_num [round_eq]
    rw [h1, h2, hr1, hr2, if_pos hc]
    ring
  · have hr1 : round (Int.fract m) = 1 := by
      rw [round_eq, Int.floor_eq_iff]
      constructor
      · push_cast; linarith
      · push_cast; linarith
    have hr2 : round (-Int.fract m) = -1 := by
      rw [round_eq, Int.floor_eq_iff]
      constructor
      · push_cast; linarith
      · push_cast; linarith
    rw [h1, h2, hr1, hr2, if_neg (ne_of_gt hc)]
    ring

/-- Splitting a whole number `n` as `(n - m) + m` and rounding both parts
overshoots `n` by exactly 1 when `m` is a half-integer and is exact
otherwise. -/
theorem jround_split_int (n : ℤ) (m : ℚ) :
    jround ((n : ℚ) - m) + jround m =
      (n : ℚ) + (if Int.fract m = 1 / 2 then 1 else 0) := by
  unfold jround
  have hrw : (n : ℚ) - m = ((n : ℤ) : ℚ) + -m := by ring
  rw [hrw, round_int_add]
  have h := round_fract_half m
  rcases eq_or_ne (Int.fract m) (1 / 2) with hc | hc
  · rw [if_pos hc] at h ⊢
    have h' : ((round (-m) : ℤ) : ℚ) + ((round m : ℤ) : ℚ) = 1 := by
      exact_mod_cast h
    push_cast
    linarith
  · rw [if_neg hc] at h ⊢
    have h' : ((round (-m) : ℤ) : ℚ) + ((round m : ℤ) : ℚ) = 0 := by
      exact_mod_cast h
    push_cast
    linarith

theorem calculateBTLMetrics_ok (input : BTLCalculatorInput)
    (h1 : 0 < input.price) (h2 : 0 ≤ input.monthlyRent)
    (h3 : 0 ≤ input.ltv) (h4 : input.ltv ≤ 1) :
    calculateBTLMetrics input = .ok (btlOutput input) := by
  unfold calculateBTLMetrics
  rw [if_neg (not_le.2 h1), if_neg (not_lt.2 h2),
    if_neg (by push_neg; exact ⟨h3, h4⟩)]

/-- The expense total is the 2-decimal rounding of a sum of values that
are already whole hundredths, so the rounding is the identity there. -/
theorem round2_sum7 (a b c d e f g : ℚ) :
    round2 (round2 a + round2 b + round2 c + round2 d + round2 e +
        round2 f + round2 g) =
      round2 a + round2 b + round2 c + round2 d + round2 e +
        round2 f + round2 g := by
  have h : round2 a + round2 b + round2 c + round2 d + round2 e +
      round2 f + round2 g =
      ((round (a * 100) + round (b * 100) + round (c * 100) +
        round (d * 100) + round (e * 100) + round (f * 100) +
        round (g * 100) : ℤ) : ℚ) / 100 := by
    unfold round2; push_cast; ring
  rw [h, round2_int_div]

/-- C3: for every valid input, each of the seven monthly expense items is
the 2-decimal rounding of its formula (fraction of rent, or annual figure
divided by 12), and `monthlyExpenses.total` equals the exact sum of the
seven rounded sub-fields. -/
theorem btl_expenses_itemization (input : BTLCalculatorInput)
    (h1 : 0 < input.price) (h2 : 0 ≤ input.monthlyRent)
    (h3 : 0 ≤ input.ltv) (h4 : input.ltv ≤ 1) :
    ∃ out, calculateBTLMetrics input = .ok out ∧
      out.monthlyExpenses.mortgage =
        round2 (calculateMonthlyMortgage (input.price * input.ltv)
          input.interestRate) ∧
      out.monthlyExpenses.maintenance =
        round2 (input.monthlyRent * input.maintenancePercent) ∧
      out.monthlyExpenses.agentFees =
        round2 (input.monthlyRent * input.agentFeePercent) ∧
      out.monthlyExpenses.voidAllowance =
        round2 (input.monthlyRent * input.voidPercent) ∧
      out.monthlyExpenses.insurance = round2 (input.annualInsurance / 12) ∧
      out.monthlyExpenses.groundRent = round2 (input.groundRent / 12) ∧
      out.monthlyExpenses.serviceCharge = round2 (input.serviceCharge / 12) ∧
      out.monthlyExpenses.total =
        out.monthlyExpenses.mortgage + out.monthlyExpenses.maintenance +
          out.monthlyExpenses.agentFees + out.monthlyExpenses.voidAllowance +
          out.monthlyExpenses.insurance + out.monthlyExpenses.groundRent +
          out.monthlyExpenses.serviceCharge := by
  refine ⟨btlOutput input, calculateBTLMetrics_ok input h1 h2 h3 h4,
    rfl, rfl, rfl, rfl, rfl, rfl, rfl, ?_⟩
  exact round2_sum7 _ _ _ _ _ _ _

theorem btl_expenses_itemization_witness :
    ((calculateBTLMetrics { price := 450000, monthlyRent := 1800 }).toOption.map
      (fun o => o.monthlyExpenses.total -
        (o.monthlyExpenses.mortgage + o.monthlyExpenses.maintenance +
          o.monthlyExpenses.agentFees + o.monthlyExpenses.voidAllowance +
          o.monthlyExpenses.insurance + o.monthlyExpenses.groundRent +
          o.monthlyExpenses.serviceCharge))) = some 0 := by
  obtain ⟨out, hok, -, -, -, -, -, -, -, htot⟩ :=
    btl_expenses_itemization { price := 450000, monthlyRent := 1800 }
      (by norm_num : (0 : ℚ) < 450000) (by norm_num : (0 : ℚ) ≤ 1800)
      (by norm_num : (0 : ℚ) ≤ 0.75) (by norm_num : (0.75 : ℚ) ≤ 1)
  rw [hok]
  simp [Except.toOption]
  rw [htot]
  ring

/-- C4 counterexample: at price 2, ltv 0.75 (rent 0), the rounded fields
are `deposit = round 0.5 = 1` and `mortgageAmount = round 1.5 = 2`, so
`deposit + mortgageAmount = 3 ≠ 2 = price`. -/
theorem btl_deposit_split_counterexample :
    ((calculateBTLMetrics { price := 2, monthlyRent := 0 }).toOption.map
      (fun o => o.deposit + o.mortgageAmount)) = some 3 ∧ (3 : ℚ) ≠ 2 := by
  constructor
  · rw [calculateBTLMetrics_ok { price := 2, monthlyRent := 0 }
      (by norm_num : (0 : ℚ) < 2) le_rfl
      (by norm_num : (0 : ℚ) ≤ 0.75) (by norm_num : (0.75 : ℚ) ≤ 1)]
    simp only [Except.toOption, Option.map_some', Option.some.injEq]
    show jround ((2 : ℚ) - 2 * 0.75) + jround ((2 : ℚ) * 0.75) = 3
    norm_num [jround, round_eq]
  · norm_num

/-- C4 amended: for every valid input with a whole-number price,
`deposit + mortgageAmount` equals the price unless `price * ltv` is an
exact half-integer, in which case the rounded fields overshoot by exactly
1 (so the original `deposit + mortgageAmount == price` fails, e.g. at
price 2, ltv 0.75). -/
theorem btl_deposit_split_amended (input : BTLCalculatorInput)
    (h1 : 0 < input.price) (h2 : 0 ≤ input.monthlyRent)
    (h3 : 0 ≤ input.ltv) (h4 : input.ltv ≤ 1)
    (hn : ∃ n : ℤ, input.price = (n : ℚ)) :
    ∃ out, calculateBTLMetrics input = .ok out ∧
      out.deposit + out.mortgageAmount =
        (if Int.fract (input.price * input.ltv) = 1 / 2
         then input.price + 1 else input.price) := by
  obtain ⟨n, hp⟩ := hn
  refine ⟨btlOutput input, calculateBTLMetrics_ok input h1 h2 h3 h4, ?_⟩
  show jround (input.price - input.price * input.ltv) +
      jround (input.price * input.ltv) = _
  rw [hp, jround_split_int n ((n : ℚ) * input.ltv)]
  split_ifs with hc
  · ring
  · ring

theorem btl_deposit_split_witness :
    ((calculateBTLMetrics { price := 4, monthlyRent := 0 }).toOption.map
      (fun o => o.deposit + o.mortgageAmount)) = some 4 := by
  obtain ⟨out, hok, hsum⟩ :=
    btl_deposit_split_amended { price := 4, monthlyRent := 0 }
      (by norm_num : (0 : ℚ) < 4) le_rfl
      (by norm_num : (0 : ℚ) ≤ 0.75) (by norm_num : (0.75 : ℚ) ≤ 1)
      ⟨4, by norm_num⟩
  rw [hok]
  simp only [Except.toOption, Option.map_some', Option.some.injEq]
  rw [hsum]
  norm_num [Int.fract]

/-- C7: `calculateBTLMetrics` fails if and only if `price ≤ 0`,
`monthlyRent < 0`, or `ltv` lies outside `[0, 1]` (after defaults), and on
failure only the error value is produced; in particular price 0 with rent
1000 yields the price validation error. -/
theorem btl_validation_iff (input : BTLCalculatorInput) :
    ((calculateBTLMetrics input).toOption = none ↔
      input.price ≤ 0 ∨ input.monthlyRent < 0 ∨
        input.ltv < 0 ∨ 1 < input.ltv) ∧
    calculateBTLMetrics { price := 0, monthlyRent := 1000 } =
      .error "Property price must be greater than 0" := by
  constructor
  · unfold calculateBTLMetrics
    split_ifs with ha hb hc
    · simp [Except.toOption, ha]
    · simp [Except.toOption, hb]
    · simp [Except.toOption]
      exact Or.inr (Or.inr hc)
    · simp [Except.toOption, ha, hb, hc]
  · unfold calculateBTLMetrics
    norm_num

end Scout
